import Mathlib

/-!
Shallow embedding of the booking date/time pickers of the mps-frontend
repository and of the booking form submit handler.

Timestamps are modelled as natural numbers counting milliseconds since a
local epoch that falls on a local midnight; the weekday of epoch day 0 is
carried in the context (`Ctx.epochWeekday`), so `getDay` below reproduces
the JavaScript `Date.getDay` weekday lookup for any epoch placement.
Operating-hours open/close times are stored as minutes since midnight:
the source keeps them as zero-padded "HH:MM" strings and compares them
lexicographically, which on zero-padded two-digit fields coincides with
numeric comparison of minutes since midnight.
-/

def msPerMin : Nat := 60000
def msPerHour : Nat := 3600000
def msPerDay : Nat := 86400000

/-- Index of the local calendar day a timestamp falls on. -/
def dayIndex (t : Nat) : Nat := t / msPerDay

/-- Local midnight of the day of `t` (JS `new Date(d); d.setHours(0,0,0,0)`). -/
def dayStart (t : Nat) : Nat := dayIndex t * msPerDay

/-- Minutes elapsed since local midnight, sub-minute part truncated;
this is what the "HH:MM" slice of `toTimeString` encodes. -/
def minuteOfDay (t : Nat) : Nat := t % msPerDay / msPerMin

/-- JS `Date.getHours`. -/
def getHours (t : Nat) : Nat := t % msPerDay / msPerHour

/-- JS `Date.getMinutes`. -/
def getMinutes (t : Nat) : Nat := t % msPerDay / msPerMin % 60

/-- JS `Date.getSeconds`. -/
def getSeconds (t : Nat) : Nat := t % msPerDay / 1000 % 60

/-- date-fns `isSameDay`: same local calendar day. -/
def isSameDay (a b : Nat) : Bool := dayIndex a == dayIndex b

/-- One operating-hours row: `{dayOfWeek, openTime, closeTime, isActive}`,
with the open/close times in minutes since midnight (see header note). -/
structure OperatingHours where
  dayOfWeek : Nat
  openTime : Nat
  closeTime : Nat
  isActive : Bool
  deriving Repr, DecidableEq

/-- One closure interval `{startDate, endDate, isActive}`, absolute ms. -/
structure ClosureDate where
  startDate : Nat
  endDate : Nat
  isActive : Bool
  deriving Repr, DecidableEq

/-- The data both pickers close over: the weekday of epoch day 0 plus the
fetched `operatingHours` and `closureDates` tables. -/
structure Ctx where
  epochWeekday : Nat
  operatingHours : List OperatingHours
  closureDates : List ClosureDate
  deriving Repr, DecidableEq

/-- JS `Date.getDay` for a timestamp, given the epoch weekday. -/
def getDay (ctx : Ctx) (t : Nat) : Nat := (ctx.epochWeekday + dayIndex t) % 7

/-- The lookup `operatingHours.find(h => h.dayOfWeek === dayOfWeek && h.isActive)`
both pickers perform. -/
def findDayHours (ctx : Ctx) (dow : Nat) : Option OperatingHours :=
  ctx.operatingHours.find? (fun h => h.dayOfWeek == dow && h.isActive)

/-- `enforceStrict15Minutes` (identical in both picker files): floor the
minutes to the previous multiple of 15 and zero seconds/milliseconds;
when already aligned, only seconds/milliseconds are zeroed. -/
def enforceStrict15Minutes (t : Nat) : Nat :=
  let minutes := getMinutes t
  let remainder := minutes % 15
  if remainder ≠ 0 then
    dayStart t + getHours t * msPerHour + (minutes - remainder) * msPerMin
  else
    dayStart t + getHours t * msPerHour + minutes * msPerMin

/-- `roundUpToNext15Minutes` (identical in both picker files): bump the
minutes to the next multiple of 15 (JS `setMinutes(60)` rolls over, which
the millisecond arithmetic reproduces); when aligned, only zero the
sub-minute fields. -/
def roundUpToNext15Minutes (t : Nat) : Nat :=
  let minutes := getMinutes t
  let remainder := minutes % 15
  if remainder ≠ 0 then
    dayStart t + getHours t * msPerHour + (minutes + (15 - remainder)) * msPerMin
  else
    dayStart t + getHours t * msPerHour + minutes * msPerMin

/-- The `date.getHours() === 0 && date.getMinutes() === 0 && date.getSeconds() === 0`
test both `handleEndChange` handlers use to detect a bare calendar pick. -/
def isDateOnlySelection (t : Nat) : Bool :=
  getHours t == 0 && getMinutes t == 0 && getSeconds t == 0

/-- Output of `enforceStrict15Minutes` always sits on a 15-minute boundary
with zero sub-minute fields. -/
theorem enforceStrict15Minutes_mod (t : Nat) :
    enforceStrict15Minutes t % 900000 = 0 := by
  unfold enforceStrict15Minutes dayStart dayIndex getHours getMinutes
  unfold msPerDay msPerHour msPerMin
  dsimp only
  have hb : t % 86400000 / 60000 / 60 = t % 86400000 / 3600000 := by
    rw [Nat.div_div_eq_div_mul]
  split <;> omega

/-- On an already 15-minute-aligned timestamp, `enforceStrict15Minutes`
is the identity. -/
theorem enforceStrict15Minutes_aligned {t : Nat} (h : t % 900000 = 0) :
    enforceStrict15Minutes t = t := by
  unfold enforceStrict15Minutes dayStart dayIndex getHours getMinutes
  unfold msPerDay msPerHour msPerMin
  dsimp only
  have hb : t % 86400000 / 60000 / 60 = t % 86400000 / 3600000 := by
    rw [Nat.div_div_eq_div_mul]
  split <;> omega

/-- Flooring within the day never changes the calendar day. -/
theorem dayIndex_enforceStrict15Minutes (t : Nat) :
    dayIndex (enforceStrict15Minutes t) = dayIndex t := by
  unfold enforceStrict15Minutes dayStart dayIndex getHours getMinutes
  unfold msPerDay msPerHour msPerMin
  dsimp only
  have hb : t % 86400000 / 60000 / 60 = t % 86400000 / 3600000 := by
    rw [Nat.div_div_eq_div_mul]
  split <;> omega

/-- Validation outcome shape `{ isValid, errorMessage? }` both pickers use. -/
structure Validation where
  isValid : Bool
  errorMessage : Option String
  deriving Repr, DecidableEq

/-- Rejection description used throughout the base picker. -/
def shopClosedMsg : String :=
  "Unable to book this slot as the shop is close in this timeslot."

/-- Rejection description used throughout the extension picker. -/
def extSlotMsg : String := "Unable to book this slot."

/-- `isTimeWithinShopHours`, textually identical in the base and extension
pickers: true when an active row exists for the weekday of `t` and the
"HH:MM" slice of `t` is between open and close inclusive. The additional
`operatingHours.length === 0` test of the source is subsumed: an empty
table makes the find return nothing. -/
def isTimeWithinShopHours (ctx : Ctx) (t : Nat) : Bool :=
  match findDayHours ctx (getDay ctx t) with
  | none => false
  | some dayHours =>
    decide (dayHours.openTime ≤ minuteOfDay t) && decide (minuteOfDay t ≤ dayHours.closeTime)

def GRACE_MS : Nat := 300000

/-- `getOptimalEndTime`, textually identical in both pickers. -/
def getOptimalEndTime (ctx : Ctx) (now : Nat) (startDate : Option Nat) (selectedDate : Nat) : Nat :=
  match startDate with
  | none => dayStart selectedDate + 9 * msPerHour
  | some startDate =>
    if isSameDay selectedDate startDate then
      let minEndTime := startDate + msPerHour
      if isSameDay selectedDate now && decide (minEndTime < now) then
        let roundedNow := roundUpToNext15Minutes now
        if roundedNow > minEndTime then roundedNow else minEndTime
      else minEndTime
    else
      match findDayHours ctx (getDay ctx selectedDate) with
      | some dayHours => dayStart selectedDate + dayHours.openTime * msPerMin
      | none => dayStart selectedDate + 9 * msPerHour

/-- Result of one `handleEndChange` invocation: `cleared` models the
`onEndDateChange(null)` call, `rejected` a toast with no state change,
`ignored` the silent same-time early return, `accepted d` the
`onEndDateChange(d)` call. -/
inductive EndChangeResult where
  | cleared
  | rejected (title : String) (description : Option String)
  | ignored
  | accepted (d : Nat)
  deriving Repr, DecidableEq

namespace Base

/-- Base-picker `isTimeSlotInClosure`: half-open overlap test against every
closure row; note the source applies no `isActive` filter here. -/
def isTimeSlotInClosure (ctx : Ctx) (startTime endTime : Nat) : Bool :=
  ctx.closureDates.any fun closure =>
    decide (startTime < closure.endDate) && decide (endTime > closure.startDate)

/-- Base-picker `isTimeWithinShopHoursWithGrace`: the plain hours test at
"HH:MM" precision, plus, for overnight spans only, acceptance up to
`GRACE_MS` after the closing instant or before the opening instant, at
millisecond precision. The Nat truncation in `graceBeforeOpen` matches the
JS comparison against a possibly negative bound: both degenerate to an
always-true lower bound. -/
def isTimeWithinShopHoursWithGrace (ctx : Ctx) (t : Nat) (isOvernight : Bool) : Bool :=
  match findDayHours ctx (getDay ctx t) with
  | none => false
  | some dayHours =>
    if dayHours.openTime ≤ minuteOfDay t ∧ minuteOfDay t ≤ dayHours.closeTime then
      true
    else if isOvernight then
      let closeTimeDate := dayStart t + dayHours.closeTime * msPerMin
      let graceAfterClose := closeTimeDate + GRACE_MS
      let openTimeDate := dayStart t + dayHours.openTime * msPerMin
      let graceBeforeOpen := openTimeDate - GRACE_MS
      (decide (closeTimeDate < t) && decide (t ≤ graceAfterClose)) ||
      (decide (t < openTimeDate) && decide (graceBeforeOpen ≤ t))
    else false

/-- Base-picker `validateTimeSlot`: grace-aware hours check on both
endpoints, then the closure-overlap check. -/
def validateTimeSlot (ctx : Ctx) (startTime endTime : Nat) : Validation :=
  let isOvernight := !isSameDay startTime endTime
  if !isTimeWithinShopHoursWithGrace ctx startTime isOvernight then
    ⟨false, some shopClosedMsg⟩
  else if !isTimeWithinShopHoursWithGrace ctx endTime isOvernight then
    ⟨false, some shopClosedMsg⟩
  else if isTimeSlotInClosure ctx startTime endTime then
    ⟨false, some shopClosedMsg⟩
  else
    ⟨true, none⟩

/-- Base-picker `getOptimalStartTime`. -/
def getOptimalStartTime (ctx : Ctx) (now selectedDate : Nat) : Nat :=
  let isToday := isSameDay selectedDate now
  match findDayHours ctx (getDay ctx selectedDate) with
  | none => dayStart selectedDate + 9 * msPerHour
  | some dayHours =>
    let openTime := dayStart selectedDate + dayHours.openTime * msPerMin
    if isToday then
      let roundedNow := roundUpToNext15Minutes now
      if roundedNow < openTime then openTime else roundedNow
    else openTime

/-- Base-picker `getAvailableTimes`: all 96 quarter-hour marks of the day,
filtered by hours, closures (no `isActive` filter in this picker) and, for
today, futurity; with the permissive fallback enumerating every mark when
the table is empty or has no row for the weekday. -/
def getAvailableTimes (ctx : Ctx) (now : Nat) (date : Option Nat) : List Nat :=
  match date with
  | none => []
  | some date =>
    let isToday := isSameDay date now
    match findDayHours ctx (getDay ctx date) with
    | none =>
      ((List.range 96).map fun i => dayStart date + i * (15 * msPerMin)).filter
        fun time => !isToday || decide (now < time)
    | some dayHours =>
      ((List.range 96).map fun i => dayStart date + i * (15 * msPerMin)).filter
        fun time =>
          decide (dayHours.openTime ≤ minuteOfDay time) &&
          decide (minuteOfDay time ≤ dayHours.closeTime) &&
          !(ctx.closureDates.any fun closure =>
              decide (time ≥ closure.startDate) && decide (time < closure.endDate)) &&
          (!isToday || decide (now < time))

/-- The inline overnight gate of the base `handleEndChange` (present twice,
textually identical): when the start weekday has an active row whose close
time is before 23:55, block the different-day selection. -/
def overnightCloseBlocked (ctx : Ctx) (startDate : Nat) : Bool :=
  match findDayHours ctx (getDay ctx startDate) with
  | none => false
  | some startDayHours =>
    let closeHours := startDayHours.closeTime / 60
    let closeMinutes := startDayHours.closeTime % 60
    decide (closeHours < 23) || (closeHours == 23 && decide (closeMinutes < 55))

/-- Tail of the base date-only branch after `validDate` is fixed: the
1-hour duration check, then `validateTimeSlot`, then acceptance. -/
def finishDateOnly (ctx : Ctx) (startDate validDate : Nat) : EndChangeResult :=
  if validDate - startDate < msPerHour then
    .rejected "Invalid Time Slot" (some "Minimum booking duration is 1 hour")
  else
    let validation := validateTimeSlot ctx startDate validDate
    if !validation.isValid then .rejected "Invalid Time Slot" validation.errorMessage
    else .accepted validDate

/-- Base-picker `handleEndChange`. -/
def handleEndChange (ctx : Ctx) (now : Nat) (startDate endDate : Option Nat)
    (date : Option Nat) : EndChangeResult :=
  match date with
  | none => .cleared
  | some date =>
    match startDate with
    | none => .rejected "Select Start Date First" none
    | some startDate =>
      if isDateOnlySelection date then
        if isSameDay date startDate then
          finishDateOnly ctx startDate (enforceStrict15Minutes (startDate + msPerHour))
        else if overnightCloseBlocked ctx startDate then
          .rejected "Invalid Time Slot" (some shopClosedMsg)
        else
          finishDateOnly ctx startDate
            (enforceStrict15Minutes (getOptimalEndTime ctx now (some startDate) date))
      else
        let validDate := enforceStrict15Minutes date
        if isSameDay validDate startDate && endDate == some validDate then
          .ignored
        else if !isSameDay validDate startDate && overnightCloseBlocked ctx startDate then
          .rejected "Invalid Time Slot" (some shopClosedMsg)
        else
          let validDate :=
            if isSameDay validDate startDate && decide (validDate < startDate + msPerHour) then
              startDate + msPerHour
            else validDate
          let validation := validateTimeSlot ctx startDate validDate
          if !validation.isValid then .rejected "Invalid Time Slot" validation.errorMessage
          else .accepted validDate

end Base

namespace Extend

/-- Extension-picker `isTimeSlotInClosure`: unlike the base picker, rows
with `isActive` false are skipped; the empty-list early return of the
source is behaviourally subsumed by `any`. -/
def isTimeSlotInClosure (ctx : Ctx) (startTime endTime : Nat) : Bool :=
  ctx.closureDates.any fun closure =>
    closure.isActive &&
    decide (startTime < closure.endDate) && decide (endTime > closure.startDate)

/-- Extension-picker `validateTimeSlot`: plain hours check on the end time
only (no grace, start not checked), then the active-closure overlap test. -/
def validateTimeSlot (ctx : Ctx) (startTime endTime : Nat) : Validation :=
  if !isTimeWithinShopHours ctx endTime then
    ⟨false, some extSlotMsg⟩
  else if isTimeSlotInClosure ctx startTime endTime then
    ⟨false, some extSlotMsg⟩
  else
    ⟨true, none⟩

/-- Extension-picker `handleEndChange`. The `startDate` prop is documented
in the source as the original booking end date (fixed); the minimum-1-hour
check is thus measured from it in both branches. -/
def handleEndChange (ctx : Ctx) (now : Nat) (startDate endDate : Option Nat)
    (date : Option Nat) : EndChangeResult :=
  match date with
  | none => .cleared
  | some date =>
    match startDate with
    | none => .rejected "Invalid Selection" (some "Start date is required.")
    | some startDate =>
      if isDateOnlySelection date then
        let validDate :=
          if isSameDay date startDate then startDate + msPerHour
          else getOptimalEndTime ctx now (some startDate) date
        let validDate := enforceStrict15Minutes validDate
        let validation := validateTimeSlot ctx startDate validDate
        if !validation.isValid then
          .rejected "Invalid Time Slot" validation.errorMessage
        else if validDate - startDate < msPerHour then
          .rejected "Minimum Extension Required" (some "Extension requires at least 1 hour.")
        else .accepted validDate
      else
        let validDate := enforceStrict15Minutes date
        if isSameDay validDate startDate && endDate == some validDate then
          .ignored
        else
          let validDate :=
            if isSameDay validDate startDate && decide (validDate < startDate + msPerHour) then
              startDate + msPerHour
            else validDate
          let validation := validateTimeSlot ctx startDate validDate
          if !validation.isValid then
            .rejected "Invalid Time Slot" validation.errorMessage
          else if validDate - startDate < msPerHour then
            .rejected "Minimum Extension Required" (some "Extension requires at least 1 hour.")
          else .accepted validDate

end Extend

/-- Outcome of the booking-form submit handler `handleBookNow`. -/
inductive BookResult where
  | rejected (title : String) (description : String)
  | redirectLogin
  | proceed
  deriving Repr, DecidableEq

/-- `handleBookNow` of BookingForm.tsx. The source compares fractional
minutes and hours; with integer millisecond timestamps those float
comparisons are exactly the integer comparisons written here. -/
def handleBookNow (user : Bool) (startDate endDate : Option Nat) : BookResult :=
  match startDate, endDate with
  | some startDate, some endDate =>
    if endDate ≤ startDate then
      .rejected "Invalid Time Range" "End time must be after start time"
    else if endDate - startDate < 60 * msPerMin then
      .rejected "Duration Too Short" "Minimum booking duration is 1 hour"
    else if endDate - startDate > 24 * msPerHour then
      .rejected "Booking Duration Exceeded"
        "Booking of more than 24 hours should not be allowed. If required, please contact admin via whatsapp."
    else if !user then .redirectLogin
    else .proceed
  | _, _ => .rejected "Missing Information" "Please fill in all required fields"

/-!
Concrete contexts used by counterexamples and witnesses. Day 0 of the
epoch has weekday 0, so day `d` has weekday `d % 7`. Day 5 starts at
432000000 ms and day 6 at 518400000 ms.
-/

/-- Weekday 5 open 08:00-23:55, weekday 6 open 00:00-23:55, no closures. -/
def lateCloseCtx : Ctx := ⟨0, [⟨5, 480, 1435, true⟩, ⟨6, 0, 1435, true⟩], []⟩

/-- Weekday 5 open 08:00-18:00 only, no closures. -/
def earlyCloseCtx : Ctx := ⟨0, [⟨5, 480, 1080, true⟩], []⟩

/-- Weekday 5 open 08:00-23:55, one INACTIVE closure 10:00-12:00 of day 5. -/
def inactiveClosureCtx : Ctx := ⟨0, [⟨5, 480, 1435, true⟩], [⟨468000000, 475200000, false⟩]⟩

/-- Empty operating-hours and closure tables (data not loaded). -/
def emptyCtx : Ctx := ⟨0, [], []⟩

/-- C2 counterexample: the base picker's closure test fires on a closure
whose `isActive` is false, although no active closure overlaps the span,
so "closures with isActive false never cause rejection" fails for the
base picker. -/
theorem C2_counterexample :
    Base.isTimeSlotInClosure inactiveClosureCtx 468000000 471600000 = true ∧
    ¬ ∃ c ∈ inactiveClosureCtx.closureDates,
        c.isActive = true ∧ 468000000 < c.endDate ∧ c.startDate < 471600000 := by
  decide

/-- C2 (amended): the extension picker rejects for closure overlap exactly
when some ACTIVE closure `c` satisfies `s < c.end` and `e > c.start`,
while the base picker applies the same overlap test to every closure,
active or not. -/
theorem C2_amended (ctx : Ctx) (s e : Nat) :
    (Extend.isTimeSlotInClosure ctx s e = true ↔
      ∃ c ∈ ctx.closureDates, c.isActive = true ∧ s < c.endDate ∧ c.startDate < e) ∧
    (Base.isTimeSlotInClosure ctx s e = true ↔
      ∃ c ∈ ctx.closureDates, s < c.endDate ∧ c.startDate < e) := by
  constructor <;>
    simp [Extend.isTimeSlotInClosure, Base.isTimeSlotInClosure, List.any_eq_true,
      and_assoc]

/-- C10: the booking-form submit handler proceeds to checkout only when
both endpoints are set, the end is after the start, and the duration is
between 60 minutes and 24 hours inclusive; any duration strictly over 24
hours is rejected with the over-limit notification. -/
theorem C10_thm :
    (∀ (user : Bool) (s e : Option Nat), handleBookNow user s e = .proceed →
      ∃ sv ev, s = some sv ∧ e = some ev ∧ sv < ev ∧
        3600000 ≤ ev - sv ∧ ev - sv ≤ 86400000) ∧
    (∀ (user : Bool) (sv ev : Nat), 86400000 < ev - sv →
      handleBookNow user (some sv) (some ev) =
        .rejected "Booking Duration Exceeded"
          "Booking of more than 24 hours should not be allowed. If required, please contact admin via whatsapp.") := by
  constructor
  · intro user s e h
    match s, e with
    | none, _ => simp [handleBookNow] at h
    | some sv, none => simp [handleBookNow] at h
    | some sv, some ev =>
      refine ⟨sv, ev, rfl, rfl, ?_⟩
      by_cases h1 : ev ≤ sv
      · simp [handleBookNow, h1] at h
      by_cases h2 : ev - sv < 60 * msPerMin
      · simp [handleBookNow, h1, h2] at h
      by_cases h3 : ev - sv > 24 * msPerHour
      · simp [handleBookNow, h1, h2, h3] at h
      simp only [msPerMin, msPerHour] at h2 h3
      omega
  · intro user sv ev h
    unfold handleBookNow
    have h1 : ¬ (ev ≤ sv) := by omega
    have h2 : ¬ (ev - sv < 60 * msPerMin) := by simp only [msPerMin]; omega
    have h3 : ev - sv > 24 * msPerHour := by simp only [msPerHour]; omega
    simp [h1, h2, h3]

/-- C10 witness: a 25-hour window is rejected with the over-limit
notification. -/
theorem C10_witness :
    86400000 < 90000000 - 0 ∧
    handleBookNow true (some 0) (some 90000000) =
      .rejected "Booking Duration Exceeded"
        "Booking of more than 24 hours should not be allowed. If required, please contact admin via whatsapp." :=
  ⟨by decide, C10_thm.2 true 0 90000000 (by decide)⟩

/-- C7: for a date-only start pick, the derived time is ceiling-snap(now)
for today at or after opening, the opening time for today before opening
or for another day, and 09:00 when no active row exists. -/
theorem C7_thm (ctx : Ctx) (now d : Nat) :
    (findDayHours ctx (getDay ctx d) = none →
      Base.getOptimalStartTime ctx now d = dayStart d + 9 * msPerHour) ∧
    (∀ dh, findDayHours ctx (getDay ctx d) = some dh →
      (isSameDay d now = true →
        (roundUpToNext15Minutes now < dayStart d + dh.openTime * msPerMin →
          Base.getOptimalStartTime ctx now d = dayStart d + dh.openTime * msPerMin) ∧
        (dayStart d + dh.openTime * msPerMin ≤ roundUpToNext15Minutes now →
          Base.getOptimalStartTime ctx now d = roundUpToNext15Minutes now)) ∧
      (isSameDay d now = false →
        Base.getOptimalStartTime ctx now d = dayStart d + dh.openTime * msPerMin)) := by
  constructor
  · intro h
    simp [Base.getOptimalStartTime, h]
  · intro dh h
    constructor
    · intro hsd
      constructor
      · intro hlt
        simp [Base.getOptimalStartTime, h, hsd, hlt]
      · intro hge
        have hnl : ¬ (roundUpToNext15Minutes now < dayStart d + dh.openTime * msPerMin) :=
          not_lt.mpr hge
        simp [Base.getOptimalStartTime, h, hsd, hnl]
    · intro hsd
      simp [Base.getOptimalStartTime, h, hsd]

/-- C7 witness: a date with no active row falls back to 09:00. -/
theorem C7_witness :
    findDayHours earlyCloseCtx (getDay earlyCloseCtx 518400000) = none ∧
    Base.getOptimalStartTime earlyCloseCtx 468000000 518400000 =
      dayStart 518400000 + 9 * msPerHour :=
  ⟨by decide, (C7_thm earlyCloseCtx 468000000 518400000).1 (by decide)⟩

/-- C9: with an empty operating-hours table, the explicit hours check
rejects every timestamp, while the raw enumeration lists every quarter
hour of the requested day, keeping only future marks when the day is
today — the permissive and non-permissive fallbacks coexist. -/
theorem C9_thm (ctx : Ctx) (h : ctx.operatingHours = []) :
    (∀ t, isTimeWithinShopHours ctx t = false) ∧
    (∀ now d, isSameDay d now = false →
      (Base.getAvailableTimes ctx now (some d)).length = 96) ∧
    (∀ now d t, t ∈ Base.getAvailableTimes ctx now (some d) ↔
      ∃ i, i < 96 ∧ t = dayStart d + i * 900000 ∧
        (isSameDay d now = true → now < t)) := by
  have hf : ∀ dow, findDayHours ctx dow = none := by
    intro dow
    unfold findDayHours
    rw [h]
    rfl
  refine ⟨?_, ?_, ?_⟩
  · intro t
    simp [isTimeWithinShopHours, hf]
  · intro now d hsd
    simp [Base.getAvailableTimes, hf, hsd]
  · intro now d t
    simp only [Base.getAvailableTimes, hf]
    simp only [List.mem_filter, List.mem_map, List.mem_range]
    constructor
    · rintro ⟨⟨i, hi, rfl⟩, hb⟩
      refine ⟨i, hi, by simp [msPerMin], ?_⟩
      intro hsd
      simp [hsd] at hb
      exact hb
    · rintro ⟨i, hi, rfl, himp⟩
      refine ⟨⟨i, hi, by simp [msPerMin]⟩, ?_⟩
      rcases Bool.eq_false_or_eq_true (isSameDay d now) with hsd | hsd
      · simp [hsd, himp hsd]
      · simp [hsd]

/-- C9 witness: empty tables give 96 raw slots yet a false hours check. -/
theorem C9_witness :
    emptyCtx.operatingHours = [] ∧
    isTimeWithinShopHours emptyCtx 12345 = false ∧
    (Base.getAvailableTimes emptyCtx 0 (some 86400000)).length = 96 :=
  ⟨rfl, (C9_thm emptyCtx rfl).1 12345, (C9_thm emptyCtx rfl).2.1 0 86400000 (by decide)⟩

/-- A successful weekday lookup returns a member row that is active and
matches the weekday. -/
theorem findDayHours_some {ctx : Ctx} {dow : Nat} {dh : OperatingHours}
    (h : findDayHours ctx dow = some dh) :
    dh ∈ ctx.operatingHours ∧ dh.isActive = true ∧ dh.dayOfWeek = dow := by
  unfold findDayHours at h
  have hmem := List.mem_of_find?_eq_some h
  have hp := List.find?_some h
  simp only [Bool.and_eq_true, beq_iff_eq] at hp
  exact ⟨hmem, hp.2, hp.1⟩

/-- A failed weekday lookup means no member row is both active and on the
weekday. -/
theorem findDayHours_none {ctx : Ctx} {dow : Nat}
    (h : findDayHours ctx dow = none) :
    ∀ r ∈ ctx.operatingHours, ¬ (r.isActive = true ∧ r.dayOfWeek = dow) := by
  unfold findDayHours at h
  intro r hr hcon
  have := List.find?_eq_none.mp h r hr
  simp only [Bool.and_eq_true, beq_iff_eq] at this
  exact this ⟨hcon.2, hcon.1⟩

/-- C3: under the documented invariant that each weekday has at most one
active row, the hours check accepts exactly the timestamps whose weekday
has an active row whose inclusive open-close window (at minute precision)
contains the time of day; with no active row for the weekday it returns
false. -/
theorem C3_thm (ctx : Ctx) (t : Nat)
    (huniq : ∀ r1 ∈ ctx.operatingHours, ∀ r2 ∈ ctx.operatingHours,
      r1.isActive = true → r2.isActive = true → r1.dayOfWeek = r2.dayOfWeek → r1 = r2) :
    (isTimeWithinShopHours ctx t = true ↔
      ∃ r ∈ ctx.operatingHours, r.isActive = true ∧ r.dayOfWeek = getDay ctx t ∧
        r.openTime ≤ minuteOfDay t ∧ minuteOfDay t ≤ r.closeTime) ∧
    ((¬ ∃ r ∈ ctx.operatingHours, r.isActive = true ∧ r.dayOfWeek = getDay ctx t) →
      isTimeWithinShopHours ctx t = false) := by
  constructor
  · constructor
    · intro h
      unfold isTimeWithinShopHours at h
      cases hf : findDayHours ctx (getDay ctx t) with
      | none => rw [hf] at h; simp at h
      | some dh =>
        rw [hf] at h
        simp only [Bool.and_eq_true, decide_eq_true_eq] at h
        obtain ⟨hmem, hact, hdow⟩ := findDayHours_some hf
        exact ⟨dh, hmem, hact, hdow, h.1, h.2⟩
    · rintro ⟨r, hr, hact, hdow, hopen, hclose⟩
      unfold isTimeWithinShopHours
      cases hf : findDayHours ctx (getDay ctx t) with
      | none => exact absurd ⟨hact, hdow⟩ (findDayHours_none hf r hr)
      | some dh =>
        obtain ⟨hmem, hact2, hdow2⟩ := findDayHours_some hf
        have : dh = r := huniq dh hmem r hr hact2 hact (by rw [hdow2, hdow])
        subst this
        simp only [Bool.and_eq_true, decide_eq_true_eq]
        exact ⟨hopen, hclose⟩
  · intro hnone
    unfold isTimeWithinShopHours
    cases hf : findDayHours ctx (getDay ctx t) with
    | none => rfl
    | some dh =>
      obtain ⟨hmem, hact, hdow⟩ := findDayHours_some hf
      exact absurd ⟨dh, hmem, hact, hdow⟩ hnone

/-- C3 witness: a weekday-5 timestamp at 10:00 inside the 08:00-23:55 row. -/
theorem C3_witness :
    (∀ r1 ∈ lateCloseCtx.operatingHours, ∀ r2 ∈ lateCloseCtx.operatingHours,
      r1.isActive = true → r2.isActive = true → r1.dayOfWeek = r2.dayOfWeek → r1 = r2) ∧
    ((isTimeWithinShopHours lateCloseCtx 468000000 = true ↔
      ∃ r ∈ lateCloseCtx.operatingHours, r.isActive = true ∧
        r.dayOfWeek = getDay lateCloseCtx 468000000 ∧
        r.openTime ≤ minuteOfDay 468000000 ∧ minuteOfDay 468000000 ≤ r.closeTime) ∧
    ((¬ ∃ r ∈ lateCloseCtx.operatingHours, r.isActive = true ∧
        r.dayOfWeek = getDay lateCloseCtx 468000000) →
      isTimeWithinShopHours lateCloseCtx 468000000 = false)) :=
  ⟨by decide, C3_thm lateCloseCtx 468000000 (by decide)⟩

/-- C5: for a timestamp whose weekday has an active row, the grace-aware
check accepts overnight candidates inside the inclusive open-close window,
or within five minutes after the closing instant, or within five minutes
before the opening instant; same-day candidates get the plain window only. -/
theorem C5_thm (ctx : Ctx) (t : Nat) (dh : OperatingHours)
    (h : findDayHours ctx (getDay ctx t) = some dh) :
    (Base.isTimeWithinShopHoursWithGrace ctx t true = true ↔
      ((dh.openTime ≤ minuteOfDay t ∧ minuteOfDay t ≤ dh.closeTime) ∨
       (dayStart t + dh.closeTime * msPerMin < t ∧
         t ≤ dayStart t + dh.closeTime * msPerMin + GRACE_MS) ∨
       (t < dayStart t + dh.openTime * msPerMin ∧
         dayStart t + dh.openTime * msPerMin ≤ t + GRACE_MS))) ∧
    (Base.isTimeWithinShopHoursWithGrace ctx t false = true ↔
      (dh.openTime ≤ minuteOfDay t ∧ minuteOfDay t ≤ dh.closeTime)) := by
  unfold Base.isTimeWithinShopHoursWithGrace
  rw [h]
  by_cases hc : dh.openTime ≤ minuteOfDay t ∧ minuteOfDay t ≤ dh.closeTime
  · simp [hc]
  · simp only [hc, if_false, if_true, iff_false, false_or]
    constructor
    · constructor
      · intro hb
        simp only [Bool.or_eq_true, Bool.and_eq_true, decide_eq_true_eq] at hb
        rcases hb with ⟨h1, h2⟩ | ⟨h1, h2⟩
        · exact Or.inl ⟨h1, by simpa using h2⟩
        · refine Or.inr ⟨h1, ?_⟩
          simp only [GRACE_MS] at h2 ⊢
          omega
      · intro hb
        simp only [Bool.or_eq_true, Bool.and_eq_true, decide_eq_true_eq]
        rcases hb with ⟨h1, h2⟩ | ⟨h1, h2⟩
        · exact Or.inl ⟨h1, h2⟩
        · refine Or.inr ⟨h1, ?_⟩
          simp only [GRACE_MS] at h2 ⊢
          omega
    · simp [hc]

/-- C5 witness: weekday-5 10:00 is inside the window under both modes. -/
theorem C5_witness :
    findDayHours lateCloseCtx (getDay lateCloseCtx 468000000) = some ⟨5, 480, 1435, true⟩ ∧
    ((Base.isTimeWithinShopHoursWithGrace lateCloseCtx 468000000 true = true ↔
      ((480 ≤ minuteOfDay 468000000 ∧ minuteOfDay 468000000 ≤ 1435) ∨
       (dayStart 468000000 + 1435 * msPerMin < 468000000 ∧
         468000000 ≤ dayStart 468000000 + 1435 * msPerMin + GRACE_MS) ∨
       (468000000 < dayStart 468000000 + 480 * msPerMin ∧
         dayStart 468000000 + 480 * msPerMin ≤ 468000000 + GRACE_MS))) ∧
    (Base.isTimeWithinShopHoursWithGrace lateCloseCtx 468000000 false = true ↔
      (480 ≤ minuteOfDay 468000000 ∧ minuteOfDay 468000000 ≤ 1435))) :=
  ⟨by decide, C5_thm lateCloseCtx 468000000 ⟨5, 480, 1435, true⟩ (by decide)⟩

/-- Quantization does not move a timestamp across a day boundary, stated
for the same-day test. -/
theorem isSameDay_enforceStrict15Minutes (a b : Nat) :
    isSameDay (enforceStrict15Minutes a) b = isSameDay a b := by
  unfold isSameDay
  rw [dayIndex_enforceStrict15Minutes]

/-- The inline close-before-23:55 test is exactly a comparison of the
close time, in minutes, against 1435. -/
theorem overnightCloseBlocked_eq {ctx : Ctx} {start : Nat} {dh : OperatingHours}
    (hrow : findDayHours ctx (getDay ctx start) = some dh) :
    Base.overnightCloseBlocked ctx start = decide (dh.closeTime < 1435) := by
  unfold Base.overnightCloseBlocked
  rw [hrow]
  dsimp only
  rw [Bool.eq_iff_iff]
  simp only [Bool.or_eq_true, Bool.and_eq_true, beq_iff_eq, decide_eq_true_eq]
  omega

/-- C4: with an active row on the start weekday, any different-day end
selection is rejected outright when that row closes before 23:55, on both
the date-only and the manual paths; when it closes at 23:55 or later the
overnight gate does not fire. -/
theorem C4_thm (ctx : Ctx) (now start : Nat) (endD : Option Nat) (date : Nat)
    (dh : OperatingHours) (hrow : findDayHours ctx (getDay ctx start) = some dh)
    (hovernight : isSameDay date start = false) :
    (dh.closeTime < 1435 →
      Base.handleEndChange ctx now (some start) endD (some date) =
        .rejected "Invalid Time Slot" (some shopClosedMsg)) ∧
    (1435 ≤ dh.closeTime → Base.overnightCloseBlocked ctx start = false) := by
  have hblk : Base.overnightCloseBlocked ctx start = decide (dh.closeTime < 1435) :=
    overnightCloseBlocked_eq hrow
  constructor
  · intro hclose
    have hb : Base.overnightCloseBlocked ctx start = true := by
      rw [hblk]
      simpa using hclose
    unfold Base.handleEndChange
    by_cases hdo : isDateOnlySelection date = true
    · simp [hdo, hovernight, hb]
    · have hdo2 : isDateOnlySelection date = false := by simpa using hdo
      have hsd : isSameDay (enforceStrict15Minutes date) start = false := by
        rw [isSameDay_enforceStrict15Minutes]
        exact hovernight
      simp [hdo2, hsd, hb]
  · intro hclose
    rw [hblk]
    simp only [decide_eq_false_iff_not, not_lt]
    exact hclose

/-- C4 witness: weekday-5 row closing 18:00 blocks the overnight pick. -/
theorem C4_witness :
    findDayHours earlyCloseCtx (getDay earlyCloseCtx 468000000) = some ⟨5, 480, 1080, true⟩ ∧
    isSameDay 519300000 468000000 = false ∧
    ((1080 < 1435 →
      Base.handleEndChange earlyCloseCtx 468000000 (some 468000000) none (some 519300000) =
        .rejected "Invalid Time Slot" (some shopClosedMsg)) ∧
    (1435 ≤ 1080 → Base.overnightCloseBlocked earlyCloseCtx 468000000 = false)) :=
  ⟨by decide, by decide,
    C4_thm earlyCloseCtx 468000000 468000000 none 519300000 ⟨5, 480, 1080, true⟩
      (by decide) (by decide)⟩

/-- Acceptance through the base date-only tail pins the accepted value and
guarantees the 1-hour floor. -/
theorem finishDateOnly_accepted {ctx : Ctx} {s w v : Nat}
    (h : Base.finishDateOnly ctx s w = .accepted v) :
    v = w ∧ msPerHour ≤ w - s := by
  unfold Base.finishDateOnly at h
  by_cases hd : w - s < msPerHour
  · simp [hd] at h
  by_cases hv : (Base.validateTimeSlot ctx s w).isValid = true
  · simp [hd, hv] at h
    exact ⟨h.symm, not_lt.mp hd⟩
  · simp [hd, hv] at h

/-- C1 counterexample: a manual overnight end 45 minutes after the start
is accepted (weekday-5 start 23:30, weekday-6 end 00:15, both rows open
late enough), so the claimed unconditional 60-minute floor fails on the
manual different-day path. -/
theorem C1_counterexample :
    Base.handleEndChange lateCloseCtx 516600000 (some 516600000) none (some 519300000) =
      .accepted 519300000 ∧ 519300000 - 516600000 < 3600000 := by
  decide

/-- C1 (amended): whenever the base picker accepts an end value for an
aligned start, the value is 15-minute aligned with zero sub-minute
fields, and the 60-minute floor holds on every date-only selection and on
every manual same-day selection; only the manual different-day path
escapes the floor. -/
theorem C1_amended (ctx : Ctx) (now start : Nat) (endD : Option Nat) (date v : Nat)
    (hal : start % 900000 = 0)
    (hacc : Base.handleEndChange ctx now (some start) endD (some date) = .accepted v) :
    v % 900000 = 0 ∧
    ((isSameDay v start = true ∨ isDateOnlySelection date = true) →
      start + 3600000 ≤ v) := by
  simp only [Base.handleEndChange] at hacc
  by_cases hdo : isDateOnlySelection date = true
  · rw [if_pos hdo] at hacc
    by_cases hsd : isSameDay date start = true
    · rw [if_pos hsd] at hacc
      obtain ⟨hv, hge⟩ := finishDateOnly_accepted hacc
      subst hv
      refine ⟨enforceStrict15Minutes_mod _, fun _ => ?_⟩
      rw [enforceStrict15Minutes_aligned (by simp only [msPerHour]; omega)]
      simp only [msPerHour]
      omega
    · rw [if_neg hsd] at hacc
      by_cases hblk : Base.overnightCloseBlocked ctx start = true
      · rw [if_pos hblk] at hacc
        simp at hacc
      · rw [if_neg hblk] at hacc
        obtain ⟨hv, hge⟩ := finishDateOnly_accepted hacc
        subst hv
        refine ⟨enforceStrict15Minutes_mod _, fun _ => ?_⟩
        simp only [msPerHour] at hge
        omega
  · rw [if_neg hdo] at hacc
    by_cases hg1 : (isSameDay (enforceStrict15Minutes date) start &&
        endD == some (enforceStrict15Minutes date)) = true
    · rw [if_pos hg1] at hacc
      simp at hacc
    · rw [if_neg hg1] at hacc
      by_cases hg2 : (!isSameDay (enforceStrict15Minutes date) start &&
          Base.overnightCloseBlocked ctx start) = true
      · rw [if_pos hg2] at hacc
        simp at hacc
      · rw [if_neg hg2] at hacc
        by_cases hbump : (isSameDay (enforceStrict15Minutes date) start &&
            decide (enforceStrict15Minutes date < start + msPerHour)) = true
        · rw [if_pos hbump] at hacc
          by_cases hv : (Base.validateTimeSlot ctx start (start + msPerHour)).isValid = true
          · simp [hv] at hacc
            subst hacc
            constructor
            · simp only [msPerHour]
              omega
            · intro _
              simp only [msPerHour]
              omega
          · simp [hv] at hacc
        · rw [if_neg hbump] at hacc
          by_cases hv : (Base.validateTimeSlot ctx start (enforceStrict15Minutes date)).isValid = true
          · simp [hv] at hacc
            subst hacc
            refine ⟨enforceStrict15Minutes_mod _, ?_⟩
            rintro (hsv | hdo2)
            · have hnlt : ¬ (enforceStrict15Minutes date < start + msPerHour) := by
                intro hlt
                exact hbump (by simp [hsv, hlt])
              simp only [msPerHour] at hnlt
              omega
            · exact absurd hdo2 (by simpa using hdo)
          · simp [hv] at hacc

/-- C1 witness: a manual same-day 11:30 end for a 10:00 start is accepted
aligned and at least one hour after the start. -/
theorem C1_witness :
    468000000 % 900000 = 0 ∧
    Base.handleEndChange lateCloseCtx 468000000 (some 468000000) none (some 473400000) =
      .accepted 473400000 ∧
    (473400000 % 900000 = 0 ∧
      ((isSameDay 473400000 468000000 = true ∨ isDateOnlySelection 473400000 = true) →
        468000000 + 3600000 ≤ 473400000)) :=
  ⟨by decide, by decide,
    C1_amended lateCloseCtx 468000000 468000000 none 473400000 473400000
      (by decide) (by decide)⟩

/-- C6 counterexample: a manual same-day 10:30 end for a 10:00 start is
silently bumped to 11:00 and accepted by the picker, not rejected with
the minimum-duration message, and the held end selection changes. -/
theorem C6_counterexample :
    Base.handleEndChange lateCloseCtx 468000000 (some 468000000) none (some 469800000) =
      .accepted 471600000 := by
  decide

/-- C6 (amended): the 60-minute rejection with the message "Minimum
booking duration is 1 hour" is issued by the booking-form submit handler;
the picker instead bumps a too-early manual same-day end to exactly
start + 60 minutes and then either accepts it or rejects it for
hours/closure reasons. -/
theorem C6_amended :
    (∀ (user : Bool) (s e : Nat), s < e → e - s < 3600000 →
      handleBookNow user (some s) (some e) =
        .rejected "Duration Too Short" "Minimum booking duration is 1 hour") ∧
    (∀ (ctx : Ctx) (now s : Nat) (endD : Option Nat) (date : Nat),
      isDateOnlySelection date = false →
      isSameDay date s = true →
      enforceStrict15Minutes date < s + msPerHour →
      endD ≠ some (enforceStrict15Minutes date) →
      Base.handleEndChange ctx now (some s) endD (some date) =
        if (Base.validateTimeSlot ctx s (s + msPerHour)).isValid then
          .accepted (s + msPerHour)
        else
          .rejected "Invalid Time Slot"
            (Base.validateTimeSlot ctx s (s + msPerHour)).errorMessage) := by
  constructor
  · intro user s e hlt hdur
    unfold handleBookNow
    have h1 : ¬ (e ≤ s) := by omega
    have h2 : e - s < 60 * msPerMin := by simp only [msPerMin]; omega
    simp [h1, h2]
  · intro ctx now s endD date hdo hsd hlt hne
    simp only [Base.handleEndChange]
    rw [if_neg (by simp [hdo])]
    have hsd2 : isSameDay (enforceStrict15Minutes date) s = true := by
      rw [isSameDay_enforceStrict15Minutes]
      exact hsd
    rw [if_neg (show ¬ ((isSameDay (enforceStrict15Minutes date) s &&
        endD == some (enforceStrict15Minutes date)) = true) by
      simp only [hsd2, Bool.true_and, beq_iff_eq]
      exact hne)]
    rw [if_neg (show ¬ ((!isSameDay (enforceStrict15Minutes date) s &&
        Base.overnightCloseBlocked ctx s) = true) by simp [hsd2])]
    rw [if_pos (show (isSameDay (enforceStrict15Minutes date) s &&
        decide (enforceStrict15Minutes date < s + msPerHour)) = true by
      simp [hsd2, hlt])]
    by_cases hv : (Base.validateTimeSlot ctx s (s + msPerHour)).isValid = true
    · simp [hv]
    · have hv2 : (Base.validateTimeSlot ctx s (s + msPerHour)).isValid = false := by
        simpa using hv
      simp [hv2]

/-- C6 witness: both amended behaviours at concrete inputs. -/
theorem C6_witness :
    (0 < 1800000 ∧ 1800000 - 0 < 3600000 ∧
      handleBookNow true (some 0) (some 1800000) =
        .rejected "Duration Too Short" "Minimum booking duration is 1 hour") ∧
    (isDateOnlySelection 469800000 = false ∧
      isSameDay 469800000 468000000 = true ∧
      enforceStrict15Minutes 469800000 < 468000000 + msPerHour ∧
      (none : Option Nat) ≠ some (enforceStrict15Minutes 469800000) ∧
      Base.handleEndChange lateCloseCtx 468000000 (some 468000000) none (some 469800000) =
        if (Base.validateTimeSlot lateCloseCtx 468000000 (468000000 + msPerHour)).isValid then
          .accepted (468000000 + msPerHour)
        else
          .rejected "Invalid Time Slot"
            (Base.validateTimeSlot lateCloseCtx 468000000 (468000000 + msPerHour)).errorMessage) :=
  ⟨⟨by decide, by decide, C6_amended.1 true 0 1800000 (by decide) (by decide)⟩,
    ⟨by decide, by decide, by decide, by decide,
      C6_amended.2 lateCloseCtx 468000000 468000000 none 469800000
        (by decide) (by decide) (by decide) (by decide)⟩⟩

/-- C8 counterexample: on a span overlapped only by an INACTIVE closure,
the extension validator accepts while the base (new-booking) validator
rejects — the closure checks applied to the extension end are not the
same checks applied to new bookings. -/
theorem C8_counterexample :
    (Extend.validateTimeSlot inactiveClosureCtx 468000000 471600000).isValid = true ∧
    (Base.validateTimeSlot inactiveClosureCtx 468000000 471600000).isValid = false := by
  decide

/-- C8 (amended): every end the extension picker accepts is at least 60
minutes after the fixed `startDate` prop (documented in the source as the
original booking end, so the extension amount is what is floored), is
15-minute aligned whenever that prop is, and passes the extension
validator, whose hours check has no overnight grace and whose closure
check skips inactive closures. -/
theorem C8_amended (ctx : Ctx) (now start : Nat) (endD : Option Nat) (date v : Nat)
    (hacc : Extend.handleEndChange ctx now (some start) endD (some date) = .accepted v) :
    start + 3600000 ≤ v ∧ (start % 900000 = 0 → v % 900000 = 0) ∧
    (Extend.validateTimeSlot ctx start v).isValid = true := by
  simp only [Extend.handleEndChange] at hacc
  by_cases hdo : isDateOnlySelection date = true
  · rw [if_pos hdo] at hacc
    by_cases hv : (Extend.validateTimeSlot ctx start
        (enforceStrict15Minutes (if isSameDay date start = true then start + msPerHour
          else getOptimalEndTime ctx now (some start) date))).isValid = true
    · rw [if_neg (by simp [hv])] at hacc
      by_cases hd : enforceStrict15Minutes (if isSameDay date start = true then start + msPerHour
          else getOptimalEndTime ctx now (some start) date) - start < msPerHour
      · rw [if_pos hd] at hacc
        simp at hacc
      · rw [if_neg hd] at hacc
        simp only [EndChangeResult.accepted.injEq] at hacc
        subst hacc
        refine ⟨?_, fun _ => enforceStrict15Minutes_mod _, hv⟩
        have hms : msPerHour = 3600000 := rfl
        omega
    · rw [if_pos (by simp [hv])] at hacc
      simp at hacc
  · rw [if_neg hdo] at hacc
    by_cases hg1 : (isSameDay (enforceStrict15Minutes date) start &&
        endD == some (enforceStrict15Minutes date)) = true
    · rw [if_pos hg1] at hacc
      simp at hacc
    · rw [if_neg hg1] at hacc
      by_cases hbump : (isSameDay (enforceStrict15Minutes date) start &&
          decide (enforceStrict15Minutes date < start + msPerHour)) = true
      · rw [if_pos hbump] at hacc
        by_cases hv : (Extend.validateTimeSlot ctx start (start + msPerHour)).isValid = true
        · rw [if_neg (by simp [hv])] at hacc
          by_cases hd : start + msPerHour - start < msPerHour
          · rw [if_pos hd] at hacc
            simp at hacc
          · rw [if_neg hd] at hacc
            simp only [EndChangeResult.accepted.injEq] at hacc
            subst hacc
            refine ⟨by simp only [msPerHour]; omega, fun hal => ?_, hv⟩
            simp only [msPerHour]
            omega
        · rw [if_pos (by simp [hv])] at hacc
          simp at hacc
      · rw [if_neg hbump] at hacc
        by_cases hv : (Extend.validateTimeSlot ctx start (enforceStrict15Minutes date)).isValid = true
        · rw [if_neg (by simp [hv])] at hacc
          by_cases hd : enforceStrict15Minutes date - start < msPerHour
          · rw [if_pos hd] at hacc
            simp at hacc
          · rw [if_neg hd] at hacc
            simp only [EndChangeResult.accepted.injEq] at hacc
            subst hacc
            refine ⟨?_, fun _ => enforceStrict15Minutes_mod _, hv⟩
            have hms : msPerHour = 3600000 := rfl
            omega
        · rw [if_pos (by simp [hv])] at hacc
          simp at hacc

/-- C8 witness: the extension picker accepts a same-day 11:30 end for a
10:00 `startDate`, one hour past it, aligned and validator-approved. -/
theorem C8_witness :
    Extend.handleEndChange lateCloseCtx 468000000 (some 468000000) none (some 473400000) =
      .accepted 473400000 ∧
    (468000000 + 3600000 ≤ 473400000 ∧
      (468000000 % 900000 = 0 → 473400000 % 900000 = 0) ∧
      (Extend.validateTimeSlot lateCloseCtx 468000000 473400000).isValid = true) :=
  ⟨by decide,
    C8_amended lateCloseCtx 468000000 468000000 none 473400000 473400000 (by decide)⟩
